import Mathlib

/-!
Shallow embedding of `workloadapi/client.go` from the go-spiffe Workload API
client, together with proofs about its message-translation functions and its
watch/backoff loop.

Conventions of the embedding:

* Raw byte strings are `List Nat`; the opaque results of the out-of-scope
  cryptographic collaborators (`x509svid.ParseRaw`, `x509.ParseCertificates`,
  `jwtbundle.Parse`, `jwtsvid.ParseInsecure`, `spiffeid.TrustDomainFromString`)
  are plain payload values.  The collaborators themselves are fields of a
  `Collab` record: every theorem quantifies over them, so nothing is assumed
  about their behaviour beyond their signatures.
* Go's `error` values are modelled by `Err`, carrying the gRPC status code
  that `status.Code` would report (`.unknown` for plain `errors.New` /
  `fmt.Errorf` errors).
* A Go function that can panic (out-of-range slice index) returns `GoResult`,
  which distinguishes a runtime panic from an error return and from success.
* `context.Context` is modelled by its outgoing-metadata component only
  (a list of key/value pairs), which is all the client reads or writes.
* Streams and the agent are modelled by scripts: a list of `Recv` outcomes
  for one stream, and a list of (session script, context-cancelled flag)
  pairs for the outer watch loop.
-/

set_option autoImplicit false

namespace SpiffeClient

/-- Raw byte strings (certificate DER, key DER, JWKS documents). -/
abbrev Bytes := List Nat

/-- Opaque parsed X509-SVID (`x509svid.SVID`), produced by the collaborator. -/
abbrev SVID := Nat

/-- Opaque parsed certificate (`x509.Certificate`). -/
abbrev Cert := Nat

/-- Opaque parsed JWT-SVID (`jwtsvid.SVID`). -/
abbrev JWTSVID := Nat

/-- A validated trust-domain identifier (`spiffeid.TrustDomain`). -/
abbrev TrustDomain := String

/-- gRPC status codes, as reported by `status.Code`.  Only the codes the
client inspects are distinguished; everything else is `other`. -/
inductive Code where
  | ok
  | canceled
  | invalidArgument
  | unknown
  | other
  deriving DecidableEq, Repr

/-- A Go `error` value: the status code `status.Code` would extract, plus the
message.  Plain `errors.New` / `fmt.Errorf` errors carry `.unknown`. -/
structure Err where
  code : Code
  msg : String
  deriving DecidableEq, Repr

/-- Result of a Go function call: a runtime panic, an error return, or a
successful return. -/
inductive GoResult (α : Type) where
  | panicked (msg : String)
  | err (e : Err)
  | ok (v : α)
  deriving DecidableEq, Repr

/-- One `X509SVID` entry of a `workload.X509SVIDResponse`. -/
structure X509SVIDEntry where
  spiffeId : String
  x509Svid : Bytes
  x509SvidKey : Bytes
  bundle : Bytes
  deriving DecidableEq, Repr

/-- A `workload.X509SVIDResponse`: the SVID entries plus the federated-bundles
map (modelled as an association list of trust-domain name / raw bundle). -/
structure X509SVIDResponse where
  svids : List X509SVIDEntry
  federatedBundles : List (String × Bytes)
  deriving DecidableEq, Repr

/-- A `workload.JWTBundlesResponse`: the bundles map, modelled as an
association list of trust-domain name / raw JWKS bytes. -/
structure JWTBundlesResponse where
  bundles : List (String × Bytes)
  deriving DecidableEq, Repr

/-- An `x509bundle.Bundle`: a trust domain plus its authority certificates
(built by `x509bundle.FromX509Authorities`). -/
structure Bundle where
  trustDomain : TrustDomain
  authorities : List Cert
  deriving DecidableEq, Repr

/-- A `jwtbundle.Bundle`: a trust domain plus an opaque parsed JWKS payload. -/
structure JWTBundle where
  trustDomain : TrustDomain
  payload : Nat
  deriving DecidableEq, Repr

/-- The out-of-scope collaborator functions, specified only at their
interface boundary.  Each theorem quantifies over a `Collab`. -/
structure Collab where
  x509svidParseRaw : Bytes → Bytes → Except Err SVID
  trustDomainFromString : String → Except Err TrustDomain
  x509ParseCertificates : Bytes → Except Err (List Cert)
  jwtbundleParse : TrustDomain → Bytes → Except Err JWTBundle
  jwtsvidParseInsecure : String → List String → Except Err JWTSVID

/-! ## Keyed bundle sets

Modelled from the spec: the bundle-set collaborator (`x509bundle.NewSet` /
`jwtbundle.NewSet`, whose sources are not under `src/`): "an immutable
collection of bundles keyed by trust-domain identifier", with "one bundle per
distinct trust-domain identifier in a given response".  A keyed insert
replaces the entry whose key is already present (map-assignment semantics). -/

/-- Insert into an association list keyed on the first component, replacing
an existing entry with the same key. -/
def keyedInsert {β : Type} : List (TrustDomain × β) → TrustDomain → β →
    List (TrustDomain × β)
  | [], k, v => [(k, v)]
  | (k', v') :: t, k, v =>
      if k = k' then (k, v) :: t else (k', v') :: keyedInsert t k v

/-- Modelled from the spec: build the keyed collection from a list of
bundles, keyed on each bundle's trust domain (`key`). -/
def buildKeyedSet {β : Type} (key : β → TrustDomain) (bs : List β) :
    List (TrustDomain × β) :=
  bs.foldl (fun acc b => keyedInsert acc (key b) b) []

/-- Modelled from the spec: `x509bundle.NewSet` — build the keyed set from a
list of bundles, keyed on each bundle's trust domain. -/
def newX509Set (bundles : List Bundle) : List (TrustDomain × Bundle) :=
  buildKeyedSet Bundle.trustDomain bundles

/-- Modelled from the spec: `jwtbundle.NewSet` — build the keyed set from a
list of JWT bundles, keyed on each bundle's trust domain. -/
def newJWTSet (bundles : List JWTBundle) : List (TrustDomain × JWTBundle) :=
  buildKeyedSet JWTBundle.trustDomain bundles

/-- The `X509Context` returned by `parseX509Context`: SVIDs plus the X.509
bundle set, both from one response message. -/
structure X509Context where
  svids : List SVID
  bundles : List (TrustDomain × Bundle)
  deriving DecidableEq, Repr

/-! ## Message translation (`parseX509SVIDs`, `parseX509Bundle(s)`,
`parseX509Context`, `parseJWTSVIDBundles`) -/

/-- The error built by `errors.New("no SVIDs in response")`. -/
def noSVIDsErr : Err := ⟨Code.unknown, "no SVIDs in response"⟩

/-- The message of a Go out-of-range slice-index panic. -/
def indexOutOfRange : String := "runtime error: index out of range"

/-- The loop of `parseX509SVIDs`: `for i := 0; i < n; i++` over `resp.Svids`,
parsing entry `i` with `x509svid.ParseRaw`; `k` is the number of iterations
remaining (`n - i`).  Indexing past the end of the slice is a Go panic.
After the loop, an empty accumulated list is rejected with
`"no SVIDs in response"`. -/
def parseSVIDsLoop (col : Collab) (entries : List X509SVIDEntry) :
    Nat → Nat → List SVID → GoResult (List SVID)
  | _, 0, acc =>
      if acc.length = 0 then GoResult.err noSVIDsErr else GoResult.ok acc
  | i, k + 1, acc =>
      match entries[i]? with
      | none => GoResult.panicked indexOutOfRange
      | some svid =>
          match col.x509svidParseRaw svid.x509Svid svid.x509SvidKey with
          | Except.error e => GoResult.err e
          | Except.ok s => parseSVIDsLoop col entries (i + 1) k (acc ++ [s])

/-- `parseX509SVIDs(resp, firstOnly)`: parse the first (`firstOnly`) or all
SVID entries of the response.  Note `n` is set to `1` under `firstOnly`
regardless of `len(resp.Svids)`. -/
def parseX509SVIDs (col : Collab) (resp : X509SVIDResponse)
    (firstOnly : Bool) : GoResult (List SVID) :=
  parseSVIDsLoop col resp.svids 0
    (if firstOnly then 1 else resp.svids.length) []

/-- `parseX509Bundle(spiffeID, bundle)`: validate the trust domain, decode the
authority certificates, reject an empty certificate list. -/
def parseX509Bundle (col : Collab) (spiffeID : String) (bundle : Bytes) :
    Except Err Bundle :=
  match col.trustDomainFromString spiffeID with
  | Except.error e => Except.error e
  | Except.ok td =>
      match col.x509ParseCertificates bundle with
      | Except.error e => Except.error e
      | Except.ok certs =>
          if certs.length = 0 then
            Except.error
              ⟨Code.unknown, "empty X.509 bundle for trust domain " ++ td⟩
          else
            Except.ok ⟨td, certs⟩

/-- Map a fallible function over a list, stopping at the first error —
the shape of both `for` loops in `parseX509Bundles`. -/
def mapExcept {α β : Type} (f : α → Except Err β) :
    List α → Except Err (List β)
  | [] => Except.ok []
  | a :: t =>
      match f a with
      | Except.error e => Except.error e
      | Except.ok b =>
          match mapExcept f t with
          | Except.error e => Except.error e
          | Except.ok bs => Except.ok (b :: bs)

/-- The `bundles` slice accumulated by `parseX509Bundles` before the set is
built: one bundle per SVID entry (from its `SpiffeId` and `Bundle` fields),
then one per federated-bundles entry. -/
def parseX509BundlesList (col : Collab) (resp : X509SVIDResponse) :
    Except Err (List Bundle) :=
  match mapExcept
      (fun e => parseX509Bundle col e.spiffeId e.bundle) resp.svids with
  | Except.error e => Except.error e
  | Except.ok fromSvids =>
      match mapExcept
          (fun p => parseX509Bundle col p.1 p.2) resp.federatedBundles with
      | Except.error e => Except.error e
      | Except.ok fromFederated => Except.ok (fromSvids ++ fromFederated)

/-- `parseX509Bundles(resp)`: accumulate the bundles and build the keyed set
with `x509bundle.NewSet`. -/
def parseX509Bundles (col : Collab) (resp : X509SVIDResponse) :
    Except Err (List (TrustDomain × Bundle)) :=
  (parseX509BundlesList col resp).map newX509Set

/-- `parseX509Context(resp)`: parse all SVIDs and all bundles of the same
response message and pair them. -/
def parseX509Context (col : Collab) (resp : X509SVIDResponse) :
    GoResult X509Context :=
  match parseX509SVIDs col resp false with
  | GoResult.panicked m => GoResult.panicked m
  | GoResult.err e => GoResult.err e
  | GoResult.ok svids =>
      match parseX509Bundles col resp with
      | Except.error e => GoResult.err e
      | Except.ok bundles => GoResult.ok ⟨svids, bundles⟩

/-- `parseJWTSVIDBundles(resp)`: for each map entry validate the trust domain
and parse the JWKS, then build the keyed set with `jwtbundle.NewSet`. -/
def parseJWTSVIDBundles (col : Collab) (resp : JWTBundlesResponse) :
    Except Err (List (TrustDomain × JWTBundle)) :=
  (mapExcept
    (fun p =>
      match col.trustDomainFromString p.1 with
      | Except.error e => Except.error e
      | Except.ok td => col.jwtbundleParse td p.2)
    resp.bundles).map newJWTSet

/-! ## Backoff and client state

Modelled from the spec (§4.1): the backoff implementation is not under
`src/`.  "`next()` returns a duration; each call, absent a `reset()`, returns
a duration strictly greater than or equal to the previous one, bounded above
by a configured maximum, following exponential growth from a configured
minimum. `reset()` returns the policy to its initial state."  Durations are
seconds as `Nat`, with growth factor 2. -/

/-- Modelled from the spec: the stateful exponential-backoff calculator. -/
structure Backoff where
  initialDelay : Nat
  maxDelay : Nat
  n : Nat
  deriving DecidableEq, Repr

/-- Modelled from the spec: a fresh backoff at its configured minimum. -/
def newBackoff : Backoff := ⟨1, 30, 0⟩

/-- Modelled from the spec: `Duration()` — return the current delay and
advance the state. -/
def Backoff.duration (b : Backoff) : Nat × Backoff :=
  (min (b.initialDelay * 2 ^ b.n) b.maxDelay, { b with n := b.n + 1 })

/-- Modelled from the spec: `Reset()` — return to the initial state. -/
def Backoff.reset (b : Backoff) : Backoff := { b with n := 0 }

/-- The client (`Client` in `client.go`).  Of its fields only the single
`backoff` is relevant to the claims: the connection and the generated gRPC
stub are opaque transport, and `config` holds only the logger and dial
options, whose calls are unobservable no-ops here. -/
structure Client where
  backoff : Backoff
  deriving DecidableEq, Repr

/-! ## Contexts, metadata and calls -/

/-- A `context.Context`, modelled by its outgoing-metadata component:
a list of key/value pairs. -/
abbrev Ctx := List (String × String)

/-- `metadata.Pairs(k, v)`. -/
def metadataPairs (k v : String) : Ctx := [(k, v)]

/-- `metadata.NewOutgoingContext(ctx, md)` replaces the context's outgoing
metadata with `md`. -/
def metadataNewOutgoingContext (_ctx : Ctx) (md : Ctx) : Ctx := md

/-- `withHeader(ctx)`: attach the fixed Workload API header. -/
def withHeader (ctx : Ctx) : Ctx :=
  metadataNewOutgoingContext ctx (metadataPairs "workload.spiffe.io" "true")

/-- One outgoing RPC issued by the client: the method and the outgoing
metadata of the context it was issued with. -/
structure Call where
  method : String
  md : Ctx
  deriving DecidableEq, Repr

/-- Convert an `Except` return into a `GoResult`. -/
def goOfExcept {α : Type} : Except Err α → GoResult α
  | Except.error e => GoResult.err e
  | Except.ok v => GoResult.ok v

/-! ## One-shot fetch operations -/

/-- Transport behaviour for one one-shot streaming call: the stream-open
outcome and the outcome of the single `Recv`. -/
structure OneShot (ρ : Type) where
  openErr : Option Err
  recv : Except Err ρ

/-- `FetchX509SVID`: open a stream with the header, `Recv` one response,
parse with `firstOnly = true` and return `svids[0]`. -/
def FetchX509SVID (col : Collab) (ctx : Ctx)
    (env : OneShot X509SVIDResponse) : List Call × GoResult SVID :=
  ([Call.mk "FetchX509SVID" (withHeader ctx)],
    match env.openErr with
    | some e => GoResult.err e
    | none =>
        match env.recv with
        | Except.error e => GoResult.err e
        | Except.ok resp =>
            match parseX509SVIDs col resp true with
            | GoResult.panicked m => GoResult.panicked m
            | GoResult.err e => GoResult.err e
            | GoResult.ok svids =>
                match svids with
                | [] => GoResult.panicked indexOutOfRange
                | s :: _ => GoResult.ok s)

/-- `FetchX509SVIDs`: as above with `firstOnly = false`, returning the list. -/
def FetchX509SVIDs (col : Collab) (ctx : Ctx)
    (env : OneShot X509SVIDResponse) : List Call × GoResult (List SVID) :=
  ([Call.mk "FetchX509SVID" (withHeader ctx)],
    match env.openErr with
    | some e => GoResult.err e
    | none =>
        match env.recv with
        | Except.error e => GoResult.err e
        | Except.ok resp => parseX509SVIDs col resp false)

/-- `FetchX509Bundles`: one response, parsed with `parseX509Bundles`. -/
def FetchX509Bundles (col : Collab) (ctx : Ctx)
    (env : OneShot X509SVIDResponse) :
    List Call × GoResult (List (TrustDomain × Bundle)) :=
  ([Call.mk "FetchX509SVID" (withHeader ctx)],
    match env.openErr with
    | some e => GoResult.err e
    | none =>
        match env.recv with
        | Except.error e => GoResult.err e
        | Except.ok resp => goOfExcept (parseX509Bundles col resp))

/-- `FetchX509Context`: one response, parsed with `parseX509Context`. -/
def FetchX509Context (col : Collab) (ctx : Ctx)
    (env : OneShot X509SVIDResponse) : List Call × GoResult X509Context :=
  ([Call.mk "FetchX509SVID" (withHeader ctx)],
    match env.openErr with
    | some e => GoResult.err e
    | none =>
        match env.recv with
        | Except.error e => GoResult.err e
        | Except.ok resp => parseX509Context col resp)

/-- `FetchJWTBundles`: one response, parsed with `parseJWTSVIDBundles`. -/
def FetchJWTBundles (col : Collab) (ctx : Ctx)
    (env : OneShot JWTBundlesResponse) :
    List Call × GoResult (List (TrustDomain × JWTBundle)) :=
  ([Call.mk "FetchJWTBundles" (withHeader ctx)],
    match env.openErr with
    | some e => GoResult.err e
    | none =>
        match env.recv with
        | Except.error e => GoResult.err e
        | Except.ok resp => goOfExcept (parseJWTSVIDBundles col resp))

/-- One entry of a `workload.JWTSVIDResponse`. -/
structure JWTSVIDEntry where
  svid : String
  deriving DecidableEq, Repr

/-- A `workload.JWTSVIDResponse`. -/
structure JWTSVIDResponse where
  svids : List JWTSVIDEntry
  deriving DecidableEq, Repr

/-- `jwtsvid.Params`. -/
structure JWTParams where
  subject : String
  audience : String
  extraAudiences : List String
  deriving DecidableEq, Repr

/-- `FetchJWTSVID`: a unary call; an empty SVID list is rejected, otherwise
the first token is parsed locally with `jwtsvid.ParseInsecure` against
`params.Audience :: params.ExtraAudiences`. -/
def FetchJWTSVID (col : Collab) (ctx : Ctx) (params : JWTParams)
    (agentResp : Except Err JWTSVIDResponse) : List Call × GoResult JWTSVID :=
  ([Call.mk "FetchJWTSVID" (withHeader ctx)],
    match agentResp with
    | Except.error e => GoResult.err e
    | Except.ok resp =>
        match resp.svids with
        | [] =>
            GoResult.err ⟨Code.unknown, "there were no SVIDs in the response"⟩
        | s :: _ =>
            goOfExcept (col.jwtsvidParseInsecure s.svid
              (params.audience :: params.extraAudiences)))

/-- `ValidateJWTSVID`: send token and audience to the agent; only on the
agent's success parse the token locally with `jwtsvid.ParseInsecure`.  The
`Bool` component records whether the local parse was performed. -/
def ValidateJWTSVID (col : Collab) (ctx : Ctx) (token audience : String)
    (agent : Except Err Unit) : List Call × Bool × GoResult JWTSVID :=
  ([Call.mk "ValidateJWTSVID" (withHeader ctx)],
    match agent with
    | Except.error e => (false, GoResult.err e)
    | Except.ok _ =>
        (true, goOfExcept (col.jwtsvidParseInsecure token [audience])))

/-! ## Watch sessions -/

/-- Observable actions of a watch: streams opened (with their outgoing
metadata), watcher callbacks, and backoff waits. -/
inductive WAction where
  | openCall (md : Ctx)
  | cbUpdate (x : X509Context)
  | cbError (e : Err)
  | cbUpdateJWT (s : List (TrustDomain × JWTBundle))
  | cbErrorJWT (e : Err)
  | wait (d : Nat)
  deriving DecidableEq, Repr

/-- Outcome of running a watch against a finite script: still running
(script exhausted while the stream is healthy), returned an error, or
panicked. -/
inductive WatchOutcome where
  | running
  | errored (e : Err)
  | panicked (m : String)
  deriving DecidableEq, Repr

/-- Script for one streaming session: the stream-open outcome and the
sequence of `Recv` outcomes. -/
structure Session (ρ : Type) where
  openErr : Option Err
  events : List (Except Err ρ)

/-- The receive loop of `watchX509Context`: on each received message reset
the backoff, then translate; a translation failure fires the watcher's error
callback and the loop continues; success fires the update callback.  A
`Recv` error ends the session with that error. -/
def watchX509ContextLoop (col : Collab) (c : Client) :
    List (Except Err X509SVIDResponse) → Client × List WAction × WatchOutcome
  | [] => (c, [], WatchOutcome.running)
  | Except.error e :: _ => (c, [], WatchOutcome.errored e)
  | Except.ok resp :: rest =>
      let c1 : Client := { c with backoff := c.backoff.reset }
      match parseX509Context col resp with
      | GoResult.panicked m => (c1, [], WatchOutcome.panicked m)
      | GoResult.err e =>
          let r := watchX509ContextLoop col c1 rest
          (r.1, WAction.cbError e :: r.2.1, r.2.2)
      | GoResult.ok x =>
          let r := watchX509ContextLoop col c1 rest
          (r.1, WAction.cbUpdate x :: r.2.1, r.2.2)

/-- `watchX509Context`: open one stream tagged with the header and drain it. -/
def watchX509Context (col : Collab) (c : Client) (ctx : Ctx)
    (s : Session X509SVIDResponse) : Client × List WAction × WatchOutcome :=
  match s.openErr with
  | some e => (c, [WAction.openCall (withHeader ctx)], WatchOutcome.errored e)
  | none =>
      let r := watchX509ContextLoop col c s.events
      (r.1, WAction.openCall (withHeader ctx) :: r.2.1, r.2.2)

/-- The receive loop of `watchJWTBundles`: identical shape, keyed on the JWT
bundle translator. -/
def watchJWTBundlesLoop (col : Collab) (c : Client) :
    List (Except Err JWTBundlesResponse) → Client × List WAction × WatchOutcome
  | [] => (c, [], WatchOutcome.running)
  | Except.error e :: _ => (c, [], WatchOutcome.errored e)
  | Except.ok resp :: rest =>
      let c1 : Client := { c with backoff := c.backoff.reset }
      match parseJWTSVIDBundles col resp with
      | Except.error e =>
          let r := watchJWTBundlesLoop col c1 rest
          (r.1, WAction.cbErrorJWT e :: r.2.1, r.2.2)
      | Except.ok s =>
          let r := watchJWTBundlesLoop col c1 rest
          (r.1, WAction.cbUpdateJWT s :: r.2.1, r.2.2)

/-- `watchJWTBundles`: open one stream tagged with the header and drain it. -/
def watchJWTBundles (col : Collab) (c : Client) (ctx : Ctx)
    (s : Session JWTBundlesResponse) : Client × List WAction × WatchOutcome :=
  match s.openErr with
  | some e => (c, [WAction.openCall (withHeader ctx)], WatchOutcome.errored e)
  | none =>
      let r := watchJWTBundlesLoop col c s.events
      (r.1, WAction.openCall (withHeader ctx) :: r.2.1, r.2.2)

/-- The error `ctx.Err()` reports when the context is cancelled during the
backoff wait. -/
def ctxCanceledErr : Err := ⟨Code.canceled, "context canceled"⟩

/-- `handleWatchError`: a cancellation- or invalid-argument-classified error
is returned as terminal; any other error advances the backoff and waits for
its duration, unless the context is cancelled first, in which case
`ctx.Err()` is returned as terminal.  `ctxDone` says whether the context is
cancelled before the backoff timer fires. -/
def handleWatchError (c : Client) (ctxDone : Bool) (e : Err) :
    Client × List WAction × Option Err :=
  if e.code = Code.canceled then (c, [], some e)
  else if e.code = Code.invalidArgument then (c, [], some e)
  else
    let p := c.backoff.duration
    let c1 : Client := { c with backoff := p.2 }
    if ctxDone then (c1, [], some ctxCanceledErr)
    else (c1, [WAction.wait p.1], none)

/-- `WatchX509Context`: run sessions until `handleWatchError` reports a
terminal error.  Each session's error is first reported through the
watcher's error callback, matching the outer loop in `client.go`. -/
def WatchX509Context (col : Collab) (c : Client) (ctx : Ctx) :
    List (Session X509SVIDResponse × Bool) →
    Client × List WAction × WatchOutcome
  | [] => (c, [], WatchOutcome.running)
  | (s, ctxDone) :: rest =>
      let r1 := watchX509Context col c ctx s
      match r1.2.2 with
      | WatchOutcome.running => (r1.1, r1.2.1, WatchOutcome.running)
      | WatchOutcome.panicked m => (r1.1, r1.2.1, WatchOutcome.panicked m)
      | WatchOutcome.errored e =>
          let r2 := handleWatchError r1.1 ctxDone e
          match r2.2.2 with
          | some e2 =>
              (r2.1, r1.2.1 ++ [WAction.cbError e] ++ r2.2.1,
                WatchOutcome.errored e2)
          | none =>
              let r3 := WatchX509Context col r2.1 ctx rest
              (r3.1, r1.2.1 ++ [WAction.cbError e] ++ r2.2.1 ++ r3.2.1,
                r3.2.2)

/-- `WatchJWTBundles`: the JWT-bundle counterpart of the outer loop. -/
def WatchJWTBundles (col : Collab) (c : Client) (ctx : Ctx) :
    List (Session JWTBundlesResponse × Bool) →
    Client × List WAction × WatchOutcome
  | [] => (c, [], WatchOutcome.running)
  | (s, ctxDone) :: rest =>
      let r1 := watchJWTBundles col c ctx s
      match r1.2.2 with
      | WatchOutcome.running => (r1.1, r1.2.1, WatchOutcome.running)
      | WatchOutcome.panicked m => (r1.1, r1.2.1, WatchOutcome.panicked m)
      | WatchOutcome.errored e =>
          let r2 := handleWatchError r1.1 ctxDone e
          match r2.2.2 with
          | some e2 =>
              (r2.1, r1.2.1 ++ [WAction.cbErrorJWT e] ++ r2.2.1,
                WatchOutcome.errored e2)
          | none =>
              let r3 := WatchJWTBundles col r2.1 ctx rest
              (r3.1, r1.2.1 ++ [WAction.cbErrorJWT e] ++ r2.2.1 ++ r3.2.1,
                r3.2.2)

/-! ## Concrete fixtures

A concrete collaborator and concrete messages, used by witnesses and
counterexamples.  The collaborator is deliberately simple: an empty raw
certificate chain is a malformed identity document, an empty string is an
invalid trust domain, everything else decodes. -/

/-- A concrete instantiation of the collaborator interfaces. -/
def sampleCollab : Collab where
  x509svidParseRaw := fun raw key =>
    if raw = [] then Except.error ⟨Code.unknown, "malformed identity document"⟩
    else Except.ok (raw.sum + key.sum)
  trustDomainFromString := fun s =>
    if s = "" then Except.error ⟨Code.unknown, "invalid trust domain"⟩
    else Except.ok s
  x509ParseCertificates := fun b => Except.ok b
  jwtbundleParse := fun td b => Except.ok ⟨td, b.sum⟩
  jwtsvidParseInsecure := fun tok aud => Except.ok (tok.length + aud.length)

/-- A well-formed SVID entry. -/
def entryA : X509SVIDEntry := ⟨"spiffe://example.org/wla", [1], [2], [7]⟩

/-- A second well-formed SVID entry in the same trust domain as `entryA`. -/
def entryB : X509SVIDEntry := ⟨"spiffe://example.org/wla", [3], [4], [8]⟩

/-- An SVID entry whose chain fails to decode under `sampleCollab`. -/
def badEntry : X509SVIDEntry := ⟨"spiffe://example.org/wla", [], [2], [7]⟩

/-- A response that parses successfully under `sampleCollab`. -/
def goodResp : X509SVIDResponse := ⟨[entryA], []⟩

/-- A response whose translation fails under `sampleCollab`. -/
def badResp : X509SVIDResponse := ⟨[badEntry], []⟩

/-- A response with two SVID entries in the same trust domain. -/
def twoEntryResp : X509SVIDResponse := ⟨[entryA, entryB], []⟩

/-- The empty X.509 response. -/
def emptyResp : X509SVIDResponse := ⟨[], []⟩

/-- A JWT-bundles response that parses successfully under `sampleCollab`. -/
def goodJwtResp : JWTBundlesResponse := ⟨[("example.org", [5])]⟩

/-- The empty JWT-bundles response. -/
def emptyJwtResp : JWTBundlesResponse := ⟨[]⟩

/-- A transient (non-cancellation, non-invalid-argument) transport error. -/
def transientErr : Err := ⟨Code.other, "transport is closing"⟩

/-- A client whose shared backoff has advanced `k` times since the last
reset. -/
def clientAt (k : Nat) : Client := ⟨⟨1, 30, k⟩⟩

/-- A response with one identity entry and one federated bundle in a
different trust domain. -/
def fedResp : X509SVIDResponse := ⟨[entryA], [("other.org", [9])]⟩

/-- A cancellation-classified transport error. -/
def cancErr : Err := ⟨Code.canceled, "context canceled by caller"⟩

/-! ## Helper lemmas -/

theorem parseSVIDsLoop_ok_length (col : Collab)
    (entries : List X509SVIDEntry) :
    ∀ (k i : Nat) (acc out : List SVID),
      parseSVIDsLoop col entries i k acc = GoResult.ok out →
      out.length = acc.length + k ∧ 0 < out.length := by
  intro k
  induction k with
  | zero =>
      intro i acc out h
      simp only [parseSVIDsLoop] at h
      by_cases h0 : acc.length = 0
      · simp [h0] at h
      · simp [h0] at h
        subst h
        omega
  | succ k ih =>
      intro i acc out h
      simp only [parseSVIDsLoop] at h
      cases he : entries[i]? with
      | none => simp [he] at h
      | some svid =>
          simp only [he] at h
          cases hp : col.x509svidParseRaw svid.x509Svid svid.x509SvidKey with
          | error e => simp [hp] at h
          | ok s =>
              simp only [hp] at h
              have := ih (i + 1) (acc ++ [s]) out h
              simp at this
              omega

theorem parseX509SVIDs_ok_length (col : Collab) (resp : X509SVIDResponse)
    (firstOnly : Bool) (l : List SVID)
    (h : parseX509SVIDs col resp firstOnly = GoResult.ok l) :
    l.length = (if firstOnly then 1 else resp.svids.length) ∧ l ≠ [] := by
  have := parseSVIDsLoop_ok_length col resp.svids
    (if firstOnly then 1 else resp.svids.length) 0 [] l h
  refine ⟨by simpa using this.1, ?_⟩
  intro hnil
  rw [hnil] at this
  simp at this

theorem mapExcept_ok_length {α β : Type} (f : α → Except Err β) :
    ∀ (l : List α) (out : List β),
      mapExcept f l = Except.ok out → out.length = l.length := by
  intro l
  induction l with
  | nil => intro out h; simp [mapExcept] at h; simp [← h]
  | cons a t ih =>
      intro out h
      simp only [mapExcept] at h
      cases hfa : f a with
      | error e => simp [hfa] at h
      | ok b =>
          simp only [hfa] at h
          cases hm : mapExcept f t with
          | error e => simp [hm] at h
          | ok bs =>
              simp only [hm] at h
              simp at h
              rw [← h]
              simp [ih bs hm]

theorem parseX509BundlesList_ok_length (col : Collab)
    (resp : X509SVIDResponse) (bs : List Bundle)
    (h : parseX509BundlesList col resp = Except.ok bs) :
    bs.length = resp.svids.length + resp.federatedBundles.length := by
  simp only [parseX509BundlesList] at h
  cases h1 : mapExcept
      (fun e => parseX509Bundle col e.spiffeId e.bundle) resp.svids with
  | error e => simp [h1] at h
  | ok fromSvids =>
      simp only [h1] at h
      cases h2 : mapExcept
          (fun p => parseX509Bundle col p.1 p.2) resp.federatedBundles with
      | error e => simp [h2] at h
      | ok fromFederated =>
          simp only [h2] at h
          simp at h
          rw [← h]
          simp [mapExcept_ok_length _ _ _ h1, mapExcept_ok_length _ _ _ h2]

theorem keyedInsert_length {β : Type} :
    ∀ (l : List (TrustDomain × β)) (k : TrustDomain) (v : β),
      (keyedInsert l k v).length =
        if k ∈ l.map Prod.fst then l.length else l.length + 1 := by
  intro l
  induction l with
  | nil => intro k v; simp [keyedInsert]
  | cons p t ih =>
      intro k v
      obtain ⟨k', v'⟩ := p
      simp only [keyedInsert]
      by_cases hk : k = k'
      · simp [hk]
      · simp only [if_neg hk, List.length_cons, List.map_cons, List.mem_cons]
        rw [ih k v]
        by_cases hm : k ∈ t.map Prod.fst
        · simp [hm, hk]
        · simp [hm, hk]

theorem keyedInsert_keys {β : Type} :
    ∀ (l : List (TrustDomain × β)) (k : TrustDomain) (v : β)
      (k' : TrustDomain),
      k' ∈ (keyedInsert l k v).map Prod.fst ↔
        k' ∈ l.map Prod.fst ∨ k' = k := by
  intro l
  induction l with
  | nil => intro k v k'; simp [keyedInsert, eq_comm]
  | cons p t ih =>
      intro k v k'
      obtain ⟨ka, va⟩ := p
      simp only [keyedInsert]
      by_cases hk : k = ka
      · subst hk
        simp [eq_comm]
        tauto
      · simp only [if_neg hk, List.map_cons, List.mem_cons, ih]
        tauto

theorem buildKeyedSet_go_length_le {β : Type} (key : β → TrustDomain) :
    ∀ (bs : List β) (acc : List (TrustDomain × β)),
      (bs.foldl (fun acc b => keyedInsert acc (key b) b) acc).length ≤
        acc.length + bs.length := by
  intro bs
  induction bs with
  | nil => intro acc; simp
  | cons b t ih =>
      intro acc
      simp only [List.foldl_cons, List.length_cons]
      calc (t.foldl (fun acc b => keyedInsert acc (key b) b)
              (keyedInsert acc (key b) b)).length
          ≤ (keyedInsert acc (key b) b).length + t.length := ih _
        _ ≤ acc.length + (t.length + 1) := by
              rw [keyedInsert_length]
              by_cases hm : key b ∈ acc.map Prod.fst
              · simp [hm]
              · simp only [if_neg hm]
                omega

theorem buildKeyedSet_go_length_nodup {β : Type} (key : β → TrustDomain) :
    ∀ (bs : List β) (acc : List (TrustDomain × β)),
      (bs.map key).Nodup →
      (∀ b ∈ bs, key b ∉ acc.map Prod.fst) →
      (bs.foldl (fun acc b => keyedInsert acc (key b) b) acc).length =
        acc.length + bs.length := by
  intro bs
  induction bs with
  | nil => intro acc _ _; simp
  | cons b t ih =>
      intro acc hnd hfresh
      simp only [List.foldl_cons, List.length_cons]
      have hbacc : key b ∉ acc.map Prod.fst := hfresh b (by simp)
      have hstep : (keyedInsert acc (key b) b).length = acc.length + 1 := by
        rw [keyedInsert_length]
        simp [hbacc]
      have hnd' : (t.map key).Nodup := by
        simp only [List.map_cons, List.nodup_cons] at hnd
        exact hnd.2
      have hb_t : key b ∉ t.map key := by
        simp only [List.map_cons, List.nodup_cons] at hnd
        exact hnd.1
      have hfresh' : ∀ x ∈ t, key x ∉ (keyedInsert acc (key b) b).map Prod.fst := by
        intro x hx
        rw [keyedInsert_keys]
        push_neg
        constructor
        · exact hfresh x (by simp [hx])
        · intro hxk
          exact hb_t (by rw [← hxk]; exact List.mem_map_of_mem key hx)
      rw [ih _ hnd' hfresh', hstep]
      omega

theorem buildKeyedSet_length_le {β : Type} (key : β → TrustDomain)
    (bs : List β) : (buildKeyedSet key bs).length ≤ bs.length := by
  simpa using buildKeyedSet_go_length_le key bs []

theorem buildKeyedSet_length_nodup {β : Type} (key : β → TrustDomain)
    (bs : List β) (h : (bs.map key).Nodup) :
    (buildKeyedSet key bs).length = bs.length := by
  simpa using buildKeyedSet_go_length_nodup key bs [] h (by simp)

/-! ## Claims -/

/-- C2: For a response message with zero identity entries the all-documents
path does return an error and never an empty success — but the
single-document path (`parseX509SVIDs` with `firstOnly`, the parse used by
`FetchX509SVID`) reads `resp.Svids[0]` before the emptiness check ever runs,
so it panics with an out-of-range index instead of returning an error.  The
emptiness check and its `"no SVIDs in response"` error show the intended
behaviour; the panic is a slip in the code. -/
theorem empty_response_single_fetch_panics :
    (∀ col : Collab,
      parseX509SVIDs col emptyResp true = GoResult.panicked indexOutOfRange) ∧
    (∀ col : Collab,
      parseX509SVIDs col emptyResp false = GoResult.err noSVIDsErr) ∧
    (∀ (col : Collab) (ctx : Ctx),
      (FetchX509SVID col ctx ⟨none, Except.ok emptyResp⟩).2 =
        GoResult.panicked indexOutOfRange) :=
  ⟨fun _ => rfl, fun _ => rfl, fun _ _ => rfl⟩

/-- C6: for a response with at least two identity entries whose first entry
decodes to document `s`, the single-document fetch parses only the first
entry and returns exactly `s`. -/
theorem single_fetch_returns_first_entry (col : Collab) (ctx : Ctx)
    (resp : X509SVIDResponse) (e0 e1 : X509SVIDEntry)
    (rest : List X509SVIDEntry) (s : SVID)
    (hsv : resp.svids = e0 :: e1 :: rest)
    (hparse : col.x509svidParseRaw e0.x509Svid e0.x509SvidKey = Except.ok s) :
    parseX509SVIDs col resp true = GoResult.ok [s] ∧
    (FetchX509SVID col ctx ⟨none, Except.ok resp⟩).2 = GoResult.ok s := by
  have h1 : parseX509SVIDs col resp true = GoResult.ok [s] := by
    simp [parseX509SVIDs, hsv, parseSVIDsLoop, hparse]
  refine ⟨h1, ?_⟩
  simp [FetchX509SVID, h1]

/-- Witness for C6 at a concrete two-entry response. -/
theorem single_fetch_returns_first_entry_witness :
    parseX509SVIDs sampleCollab twoEntryResp true = GoResult.ok [3] ∧
    (FetchX509SVID sampleCollab [] ⟨none, Except.ok twoEntryResp⟩).2 =
      GoResult.ok 3 :=
  single_fetch_returns_first_entry sampleCollab [] twoEntryResp entryA entryB
    [] 3 rfl rfl

/-- C8: `ValidateJWTSVID` performs the local signature-unverified parse if
and only if the agent-side validation call succeeded; when the agent rejects
the token, the agent's error is returned and no locally parsed token is
produced. -/
theorem validate_jwt_parses_locally_iff_agent_ok (col : Collab) (ctx : Ctx)
    (token audience : String) :
    (∀ e : Err,
      (ValidateJWTSVID col ctx token audience (Except.error e)).2 =
        (false, GoResult.err e)) ∧
    (ValidateJWTSVID col ctx token audience (Except.ok ())).2 =
      (true, goOfExcept (col.jwtsvidParseInsecure token [audience])) :=
  ⟨fun _ => rfl, rfl⟩

/-- C9: whenever `parseX509SVIDs` returns without an error the returned list
is non-empty, so `FetchX509SVID`'s access to the first element after a
successful parse is in bounds: the fetch returns the head, never the
out-of-range panic. -/
theorem parse_ok_nonempty_first_access_safe (col : Collab)
    (resp : X509SVIDResponse) :
    (∀ (firstOnly : Bool) (l : List SVID),
      parseX509SVIDs col resp firstOnly = GoResult.ok l → l ≠ []) ∧
    (∀ (ctx : Ctx) (l : List SVID),
      parseX509SVIDs col resp true = GoResult.ok l →
      ∃ s t, l = s :: t ∧
        (FetchX509SVID col ctx ⟨none, Except.ok resp⟩).2 = GoResult.ok s) := by
  constructor
  · intro firstOnly l h
    exact (parseX509SVIDs_ok_length col resp firstOnly l h).2
  · intro ctx l h
    cases l with
    | nil => exact absurd rfl (parseX509SVIDs_ok_length col resp true [] h).2
    | cons s t =>
        refine ⟨s, t, rfl, ?_⟩
        simp [FetchX509SVID, h]

/-- Witness for C9 at a concrete one-entry response. -/
theorem parse_ok_nonempty_first_access_safe_witness :
    ([3] : List SVID) ≠ [] ∧
    ∃ s t, ([3] : List SVID) = s :: t ∧
      (FetchX509SVID sampleCollab [] ⟨none, Except.ok goodResp⟩).2 =
        GoResult.ok s := by
  have h : parseX509SVIDs sampleCollab goodResp true = GoResult.ok [3] := by
    decide
  exact ⟨(parse_ok_nonempty_first_access_safe sampleCollab goodResp).1 true
      [3] h,
    (parse_ok_nonempty_first_access_safe sampleCollab goodResp).2 [] [3] h⟩

/-- C10: a JWT-bundles response with zero bundle entries is not an error:
`parseJWTSVIDBundles` (and hence `FetchJWTBundles`) succeeds with the empty
bundle set — unlike the identity-document parse, which rejects a response
with zero entries. -/
theorem empty_jwt_bundles_response_ok (col : Collab) (ctx : Ctx)
    (resp : JWTBundlesResponse) (hb : resp.bundles = []) :
    parseJWTSVIDBundles col resp = Except.ok [] ∧
    (FetchJWTBundles col ctx ⟨none, Except.ok resp⟩).2 = GoResult.ok [] ∧
    parseX509SVIDs col ⟨[], []⟩ false = GoResult.err noSVIDsErr := by
  have h1 : parseJWTSVIDBundles col resp = Except.ok [] := by
    simp [parseJWTSVIDBundles, hb, mapExcept, newJWTSet, buildKeyedSet,
      Except.map]
  refine ⟨h1, ?_, rfl⟩
  simp [FetchJWTBundles, h1, goOfExcept]

/-- Witness for C10 at the concrete empty JWT-bundles response. -/
theorem empty_jwt_bundles_response_ok_witness :
    parseJWTSVIDBundles sampleCollab emptyJwtResp = Except.ok [] ∧
    (FetchJWTBundles sampleCollab [] ⟨none, Except.ok emptyJwtResp⟩).2 =
      GoResult.ok [] ∧
    parseX509SVIDs sampleCollab ⟨[], []⟩ false = GoResult.err noSVIDsErr :=
  empty_jwt_bundles_response_ok sampleCollab [] emptyJwtResp rfl

/-- C3 (counterexample): the claim "exactly M + (count of federated bundles)
bundles" fails on a response whose two identity entries (each carrying a
bundle entry, so N = M = 2) share one trust domain: the parse succeeds, the
context has 2 documents, but its bundle set — keyed by trust domain — holds
1 bundle, not 2 + 0. -/
theorem x509_context_bundle_count_counterexample :
    twoEntryResp.svids.length = 2 ∧
    twoEntryResp.federatedBundles.length = 0 ∧
    parseX509Context sampleCollab twoEntryResp =
      GoResult.ok
        ⟨[3, 7],
          [("spiffe://example.org/wla", ⟨"spiffe://example.org/wla", [8]⟩)]⟩ ∧
    (X509Context.mk [3, 7]
        [("spiffe://example.org/wla",
          ⟨"spiffe://example.org/wla", [8]⟩)]).bundles.length ≠
      twoEntryResp.svids.length + twoEntryResp.federatedBundles.length := by
  refine ⟨rfl, rfl, by decide, by decide⟩

/-- C3 (amended): when `parseX509Context` succeeds on a response with N
identity entries (each carrying one bundle entry) and F federated bundles,
the context has exactly N documents, each half equals the translation of
that same message, the accumulated bundle list has exactly N + F entries,
and the context's bundle set — one bundle per distinct trust domain — has at
most N + F bundles, with equality exactly guaranteed when the parsed trust
domains are pairwise distinct. -/
theorem x509_context_counts (col : Collab) (resp : X509SVIDResponse)
    (ctxOut : X509Context) (bs : List Bundle)
    (h : parseX509Context col resp = GoResult.ok ctxOut)
    (hbs : parseX509BundlesList col resp = Except.ok bs) :
    parseX509SVIDs col resp false = GoResult.ok ctxOut.svids ∧
    parseX509Bundles col resp = Except.ok ctxOut.bundles ∧
    ctxOut.svids.length = resp.svids.length ∧
    bs.length = resp.svids.length + resp.federatedBundles.length ∧
    ctxOut.bundles = newX509Set bs ∧
    ctxOut.bundles.length ≤
      resp.svids.length + resp.federatedBundles.length ∧
    ((bs.map Bundle.trustDomain).Nodup →
      ctxOut.bundles.length =
        resp.svids.length + resp.federatedBundles.length) := by
  obtain ⟨cs, cb⟩ := ctxOut
  cases hsv : parseX509SVIDs col resp false with
  | panicked m => simp [parseX509Context, hsv] at h
  | err e => simp [parseX509Context, hsv] at h
  | ok svids =>
      have hb : parseX509Bundles col resp = Except.ok (newX509Set bs) := by
        simp [parseX509Bundles, hbs, Except.map]
      simp only [parseX509Context, hsv, hb] at h
      simp only [GoResult.ok.injEq, X509Context.mk.injEq] at h
      obtain ⟨h1, h2⟩ := h
      subst h1
      subst h2
      have hlen := parseX509SVIDs_ok_length col resp false svids hsv
      have hblen := parseX509BundlesList_ok_length col resp bs hbs
      refine ⟨rfl, hb, by simpa using hlen.1, hblen, rfl, ?_, ?_⟩
      · rw [← hblen]
        exact buildKeyedSet_length_le Bundle.trustDomain bs
      · intro hnd
        rw [← hblen]
        exact buildKeyedSet_length_nodup Bundle.trustDomain bs hnd

/-- Witness for C3 (amended) at a response with one identity entry and one
federated bundle in a distinct trust domain: the set has exactly 1 + 1
bundles. -/
theorem x509_context_counts_witness :
    (X509Context.mk [3]
        [("spiffe://example.org/wla", ⟨"spiffe://example.org/wla", [7]⟩),
          ("other.org", ⟨"other.org", [9]⟩)]).bundles.length =
      fedResp.svids.length + fedResp.federatedBundles.length :=
  (x509_context_counts sampleCollab fedResp
      ⟨[3],
        [("spiffe://example.org/wla", ⟨"spiffe://example.org/wla", [7]⟩),
          ("other.org", ⟨"other.org", [9]⟩)]⟩
      [⟨"spiffe://example.org/wla", [7]⟩, ⟨"other.org", [9]⟩]
      (by decide) rfl).2.2.2.2.2.2 (by decide)

/-- C1 (counterexample): the claim says that on translation failure the
backoff is not reset; but a client whose backoff had advanced to n = 3 has
n = 0 after the watch receives one message whose translation fails —
`backoff.Reset()` runs on receipt, before translation. -/
theorem watch_translation_failure_counterexample :
    (watchX509ContextLoop sampleCollab (clientAt 3)
        [Except.ok badResp]).1.backoff.n = 0 ∧
    (clientAt 3).backoff.n = 3 := by
  refine ⟨by decide, rfl⟩

/-- C1 (amended): when a received message fails translation the watcher's
error callback fires, the session is not ended, and a subsequent valid
message still fires the update callback; the backoff, however, IS reset on
each successfully received message — before translation — so it is reset
even for the malformed one. -/
theorem watch_translation_failure_resilient (col : Collab) (c : Client)
    (bad good : X509SVIDResponse) (tail : List (Except Err X509SVIDResponse))
    (e : Err) (x : X509Context)
    (hbad : parseX509Context col bad = GoResult.err e)
    (hgood : parseX509Context col good = GoResult.ok x) :
    (watchX509ContextLoop col c (Except.ok bad :: Except.ok good :: tail) =
      (let r := watchX509ContextLoop col ⟨c.backoff.reset⟩ tail
       (r.1, WAction.cbError e :: WAction.cbUpdate x :: r.2.1, r.2.2))) ∧
    (⟨c.backoff.reset⟩ : Client).backoff.n = 0 := by
  constructor
  · simp [watchX509ContextLoop, hbad, hgood, Backoff.reset]
  · rfl

/-- Witness for C1 (amended) on a concrete malformed-then-valid script. -/
theorem watch_translation_failure_resilient_witness :
    (watchX509ContextLoop sampleCollab (clientAt 3)
        [Except.ok badResp, Except.ok goodResp] =
      (let r := watchX509ContextLoop sampleCollab
          ⟨(clientAt 3).backoff.reset⟩ []
       (r.1,
        WAction.cbError ⟨Code.unknown, "malformed identity document"⟩ ::
          WAction.cbUpdate
            ⟨[3], [("spiffe://example.org/wla",
              ⟨"spiffe://example.org/wla", [7]⟩)]⟩ :: r.2.1,
        r.2.2))) ∧
    (⟨(clientAt 3).backoff.reset⟩ : Client).backoff.n = 0 :=
  watch_translation_failure_resilient sampleCollab (clientAt 3) badResp
    goodResp [] ⟨Code.unknown, "malformed identity document"⟩
    ⟨[3], [("spiffe://example.org/wla", ⟨"spiffe://example.org/wla", [7]⟩)]⟩
    (by decide) (by decide)

/-- C5 (counterexample): the two watch kinds share one backoff.  Starting
from a client whose backoff advanced to n = 3, a JWT-bundle session that
receives one valid message resets the client's backoff to n = 0, and an
X.509-context watch on the resulting client then waits 1 second instead of
the 8 seconds it waits on the original client — one session's receive
changed the other session's retry timing. -/
theorem backoff_shared_between_watches_counterexample :
    (watchJWTBundlesLoop sampleCollab (clientAt 3)
        [Except.ok goodJwtResp]).1.backoff.n = 0 ∧
    (clientAt 3).backoff.n = 3 ∧
    (WatchX509Context sampleCollab
        (watchJWTBundlesLoop sampleCollab (clientAt 3)
          [Except.ok goodJwtResp]).1
        [] [(⟨some transientErr, []⟩, false)]).2.1 =
      [WAction.openCall (withHeader []), WAction.cbError transientErr,
        WAction.wait 1] ∧
    (WatchX509Context sampleCollab (clientAt 3) []
        [(⟨some transientErr, []⟩, false)]).2.1 =
      [WAction.openCall (withHeader []), WAction.cbError transientErr,
        WAction.wait 8] := by
  refine ⟨by decide, rfl, by decide, by decide⟩

/-- C5 (amended): the backoff state is owned by the `Client` and shared by
all watch sessions on that client: a message received by either the
X.509-context watch or the JWT-bundle watch resets the client's single
backoff, and the shared `handleWatchError` computes its retry wait from that
same field, advancing it. -/
theorem backoff_client_owned_shared (col : Collab) (c : Client)
    (resp : X509SVIDResponse) (jresp : JWTBundlesResponse) (e : Err)
    (he1 : e.code ≠ Code.canceled) (he2 : e.code ≠ Code.invalidArgument) :
    (watchX509ContextLoop col c [Except.ok resp]).1.backoff =
      c.backoff.reset ∧
    (watchJWTBundlesLoop col c [Except.ok jresp]).1.backoff =
      c.backoff.reset ∧
    handleWatchError c false e =
      (⟨(c.backoff.duration).2⟩, [WAction.wait (c.backoff.duration).1],
        none) := by
  refine ⟨?_, ?_, ?_⟩
  · cases hp : parseX509Context col resp with
    | panicked m => simp [watchX509ContextLoop, hp]
    | err er => simp [watchX509ContextLoop, hp]
    | ok x => simp [watchX509ContextLoop, hp]
  · cases hp : parseJWTSVIDBundles col jresp with
    | error er => simp [watchJWTBundlesLoop, hp]
    | ok s => simp [watchJWTBundlesLoop, hp]
  · simp [handleWatchError, he1, he2]

/-- Witness for C5 (amended) at a concrete client and transient error. -/
theorem backoff_client_owned_shared_witness :
    (watchX509ContextLoop sampleCollab (clientAt 3)
        [Except.ok goodResp]).1.backoff = (clientAt 3).backoff.reset ∧
    (watchJWTBundlesLoop sampleCollab (clientAt 3)
        [Except.ok goodJwtResp]).1.backoff = (clientAt 3).backoff.reset ∧
    handleWatchError (clientAt 3) false transientErr =
      (⟨((clientAt 3).backoff.duration).2⟩,
        [WAction.wait ((clientAt 3).backoff.duration).1], none) :=
  backoff_client_owned_shared sampleCollab (clientAt 3) goodResp goodJwtResp
    transientErr (by decide) (by decide)

theorem watchX509ContextLoop_no_open (col : Collab) :
    ∀ (evs : List (Except Err X509SVIDResponse)) (c : Client) (md : Ctx),
      WAction.openCall md ∉ (watchX509ContextLoop col c evs).2.1 := by
  intro evs
  induction evs with
  | nil => intro c md; simp [watchX509ContextLoop]
  | cons ev rest ih =>
      intro c md
      cases ev with
      | error e => simp [watchX509ContextLoop]
      | ok resp =>
          cases hp : parseX509Context col resp with
          | panicked m => simp [watchX509ContextLoop, hp]
          | err e =>
              intro hmem
              simp [watchX509ContextLoop, hp] at hmem
              exact ih _ md hmem
          | ok x =>
              intro hmem
              simp [watchX509ContextLoop, hp] at hmem
              exact ih _ md hmem

theorem watchJWTBundlesLoop_no_open (col : Collab) :
    ∀ (evs : List (Except Err JWTBundlesResponse)) (c : Client) (md : Ctx),
      WAction.openCall md ∉ (watchJWTBundlesLoop col c evs).2.1 := by
  intro evs
  induction evs with
  | nil => intro c md; simp [watchJWTBundlesLoop]
  | cons ev rest ih =>
      intro c md
      cases ev with
      | error e => simp [watchJWTBundlesLoop]
      | ok resp =>
          cases hp : parseJWTSVIDBundles col resp with
          | error e =>
              intro hmem
              simp [watchJWTBundlesLoop, hp] at hmem
              exact ih _ md hmem
          | ok x =>
              intro hmem
              simp [watchJWTBundlesLoop, hp] at hmem
              exact ih _ md hmem

theorem watchX509Context_open_actions (col : Collab) (c : Client) (ctx : Ctx)
    (s : Session X509SVIDResponse) :
    ∀ a ∈ (watchX509Context col c ctx s).2.1, ∀ md : Ctx,
      a = WAction.openCall md → md = withHeader ctx := by
  obtain ⟨oe, evs⟩ := s
  intro a ha md hmd
  subst hmd
  cases oe with
  | some e =>
      simp [watchX509Context] at ha
      exact ha
  | none =>
      simp [watchX509Context] at ha
      rcases ha with ha | ha
      · exact ha
      · exact absurd ha (watchX509ContextLoop_no_open col evs c md)

theorem watchJWTBundles_open_actions (col : Collab) (c : Client) (ctx : Ctx)
    (s : Session JWTBundlesResponse) :
    ∀ a ∈ (watchJWTBundles col c ctx s).2.1, ∀ md : Ctx,
      a = WAction.openCall md → md = withHeader ctx := by
  obtain ⟨oe, evs⟩ := s
  intro a ha md hmd
  subst hmd
  cases oe with
  | some e =>
      simp [watchJWTBundles] at ha
      exact ha
  | none =>
      simp [watchJWTBundles] at ha
      rcases ha with ha | ha
      · exact ha
      · exact absurd ha (watchJWTBundlesLoop_no_open col evs c md)

theorem watchX509Context_actions_head (col : Collab) (c : Client) (ctx : Ctx)
    (s : Session X509SVIDResponse) :
    ∃ t, (watchX509Context col c ctx s).2.1 =
      WAction.openCall (withHeader ctx) :: t := by
  obtain ⟨oe, evs⟩ := s
  cases oe with
  | some e => exact ⟨[], rfl⟩
  | none => exact ⟨(watchX509ContextLoop col c evs).2.1, rfl⟩

theorem handleWatchError_no_open (c : Client) (d : Bool) (e : Err)
    (md : Ctx) : WAction.openCall md ∉ (handleWatchError c d e).2.1 := by
  by_cases h1 : e.code = Code.canceled
  · simp [handleWatchError, h1]
  · by_cases h2 : e.code = Code.invalidArgument
    · simp [handleWatchError, h1, h2]
    · cases d
      · simp [handleWatchError, h1, h2]
      · simp [handleWatchError, h1, h2]

theorem WatchX509Context_open_md (col : Collab) (ctx : Ctx) :
    ∀ (script : List (Session X509SVIDResponse × Bool)) (c : Client),
      ∀ a ∈ (WatchX509Context col c ctx script).2.1, ∀ md : Ctx,
        a = WAction.openCall md → md = withHeader ctx := by
  intro script
  induction script with
  | nil =>
      intro c a ha
      simp [WatchX509Context] at ha
  | cons p rest ih =>
      obtain ⟨s, d⟩ := p
      intro c a ha md hmd
      subst hmd
      rcases hw : watchX509Context col c ctx s with ⟨c1, r1⟩
      obtain ⟨as1, out⟩ := r1
      have hsess := watchX509Context_open_actions col c ctx s
      rw [hw] at hsess
      cases out with
      | running =>
          simp [WatchX509Context, hw] at ha
          exact hsess _ ha md rfl
      | panicked m =>
          simp [WatchX509Context, hw] at ha
          exact hsess _ ha md rfl
      | errored e =>
          rcases hh : handleWatchError c1 d e with ⟨c2, r2⟩
          obtain ⟨as2, term⟩ := r2
          have hno := handleWatchError_no_open c1 d e md
          rw [hh] at hno
          cases term with
          | some e2 =>
              simp [WatchX509Context, hw, hh] at ha
              rcases ha with ha | ha
              · exact hsess _ ha md rfl
              · exact absurd ha hno
          | none =>
              simp [WatchX509Context, hw, hh] at ha
              rcases ha with ha | ha | ha
              · exact hsess _ ha md rfl
              · exact absurd ha hno
              · exact ih c2 _ ha md rfl

theorem WatchJWTBundles_open_md (col : Collab) (ctx : Ctx) :
    ∀ (script : List (Session JWTBundlesResponse × Bool)) (c : Client),
      ∀ a ∈ (WatchJWTBundles col c ctx script).2.1, ∀ md : Ctx,
        a = WAction.openCall md → md = withHeader ctx := by
  intro script
  induction script with
  | nil =>
      intro c a ha
      simp [WatchJWTBundles] at ha
  | cons p rest ih =>
      obtain ⟨s, d⟩ := p
      intro c a ha md hmd
      subst hmd
      rcases hw : watchJWTBundles col c ctx s with ⟨c1, r1⟩
      obtain ⟨as1, out⟩ := r1
      have hsess := watchJWTBundles_open_actions col c ctx s
      rw [hw] at hsess
      cases out with
      | running =>
          simp [WatchJWTBundles, hw] at ha
          exact hsess _ ha md rfl
      | panicked m =>
          simp [WatchJWTBundles, hw] at ha
          exact hsess _ ha md rfl
      | errored e =>
          rcases hh : handleWatchError c1 d e with ⟨c2, r2⟩
          obtain ⟨as2, term⟩ := r2
          have hno := handleWatchError_no_open c1 d e md
          rw [hh] at hno
          cases term with
          | some e2 =>
              simp [WatchJWTBundles, hw, hh] at ha
              rcases ha with ha | ha
              · exact hsess _ ha md rfl
              · exact absurd ha hno
          | none =>
              simp [WatchJWTBundles, hw, hh] at ha
              rcases ha with ha | ha | ha
              · exact hsess _ ha md rfl
              · exact absurd ha hno
              · exact ih c2 _ ha md rfl

theorem WatchX509Context_actions_head (col : Collab) (c : Client) (ctx : Ctx)
    (s : Session X509SVIDResponse) (d : Bool)
    (rest : List (Session X509SVIDResponse × Bool)) :
    ∃ t, (WatchX509Context col c ctx ((s, d) :: rest)).2.1 =
      WAction.openCall (withHeader ctx) :: t := by
  obtain ⟨t0, ht⟩ := watchX509Context_actions_head col c ctx s
  rcases hw : watchX509Context col c ctx s with ⟨c1, r1⟩
  obtain ⟨as1, out⟩ := r1
  rw [hw] at ht
  simp only at ht
  cases out with
  | running => exact ⟨t0, by simp [WatchX509Context, hw, ht]⟩
  | panicked m => exact ⟨t0, by simp [WatchX509Context, hw, ht]⟩
  | errored e =>
      rcases hh : handleWatchError c1 d e with ⟨c2, r2⟩
      obtain ⟨as2, term⟩ := r2
      cases term with
      | some e2 =>
          exact ⟨t0 ++ [WAction.cbError e] ++ as2,
            by simp [WatchX509Context, hw, hh, ht]⟩
      | none =>
          rcases hr : WatchX509Context col c2 ctx rest with ⟨c3, r3⟩
          obtain ⟨as3, out3⟩ := r3
          exact ⟨t0 ++ [WAction.cbError e] ++ as2 ++ as3,
            by simp [WatchX509Context, hw, hh, hr, ht]⟩

/-- C4: when a watch session ends with error `e`: if `e` is classified
cancellation or invalid-argument the watch returns `e` with no backoff wait
and no reopen; for any other classification the watch waits the backoff
duration and recurses into the remaining sessions — reopening a stream as
its next action whenever another session follows — unless the context is
cancelled during the wait, in which case `ctx.Err()` ends the watch. -/
theorem watch_error_classification (col : Collab) (c : Client) (ctx : Ctx)
    (s : Session X509SVIDResponse)
    (rest : List (Session X509SVIDResponse × Bool)) (e : Err) (c1 : Client)
    (as1 : List WAction)
    (hsess : watchX509Context col c ctx s =
      (c1, as1, WatchOutcome.errored e)) :
    (∀ ctxDone : Bool,
      (e.code = Code.canceled ∨ e.code = Code.invalidArgument) →
      WatchX509Context col c ctx ((s, ctxDone) :: rest) =
        (c1, as1 ++ [WAction.cbError e], WatchOutcome.errored e)) ∧
    (e.code ≠ Code.canceled → e.code ≠ Code.invalidArgument →
      WatchX509Context col c ctx ((s, false) :: rest) =
        (let r := WatchX509Context col ⟨(c1.backoff.duration).2⟩ ctx rest
         (r.1,
          as1 ++ [WAction.cbError e, WAction.wait (c1.backoff.duration).1]
            ++ r.2.1,
          r.2.2))) ∧
    (e.code ≠ Code.canceled → e.code ≠ Code.invalidArgument →
      WatchX509Context col c ctx ((s, true) :: rest) =
        (⟨(c1.backoff.duration).2⟩, as1 ++ [WAction.cbError e],
          WatchOutcome.errored ctxCanceledErr)) ∧
    (∀ (s' : Session X509SVIDResponse) (d' : Bool)
        (rest' : List (Session X509SVIDResponse × Bool)) (c' : Client),
      rest = (s', d') :: rest' →
      ∃ t, (WatchX509Context col c' ctx rest).2.1 =
        WAction.openCall (withHeader ctx) :: t) := by
  refine ⟨?_, ?_, ?_, ?_⟩
  · intro ctxDone hterm
    rcases hterm with h | h
    · simp [WatchX509Context, hsess, handleWatchError, h]
    · simp [WatchX509Context, hsess, handleWatchError, h]
  · intro h1 h2
    rcases hr : WatchX509Context col ⟨(c1.backoff.duration).2⟩ ctx rest
      with ⟨c3, r3⟩
    obtain ⟨as3, out3⟩ := r3
    simp [WatchX509Context, hsess, handleWatchError, h1, h2, hr]
  · intro h1 h2
    simp [WatchX509Context, hsess, handleWatchError, h1, h2]
  · intro s' d' rest' c' hrest
    subst hrest
    exact WatchX509Context_actions_head col c' ctx s' d' rest'

/-- Witness for C4: a cancellation-classified session error terminates the
watch immediately with that error, after the error callback, with no wait and
no reopen. -/
theorem watch_error_classification_witness :
    WatchX509Context sampleCollab (clientAt 0) []
        [(⟨some cancErr, []⟩, false)] =
      (clientAt 0,
        [WAction.openCall (withHeader []), WAction.cbError cancErr],
        WatchOutcome.errored cancErr) :=
  (watch_error_classification sampleCollab (clientAt 0) [] ⟨some cancErr, []⟩
      [] cancErr (clientAt 0) [WAction.openCall (withHeader [])] rfl).1
    false (Or.inl rfl)

/-- C7: every outgoing call issued by the client — each one-shot fetch, the
token validation, and every stream opened by a watch, including reopens —
carries the metadata header key `workload.spiffe.io` with value `true`. -/
theorem every_call_carries_workload_header :
    (∀ ctx : Ctx, ("workload.spiffe.io", "true") ∈ withHeader ctx) ∧
    (∀ (col : Collab) (ctx : Ctx) (env : OneShot X509SVIDResponse),
      ∀ cl ∈ (FetchX509SVID col ctx env).1,
        ("workload.spiffe.io", "true") ∈ cl.md) ∧
    (∀ (col : Collab) (ctx : Ctx) (env : OneShot X509SVIDResponse),
      ∀ cl ∈ (FetchX509SVIDs col ctx env).1,
        ("workload.spiffe.io", "true") ∈ cl.md) ∧
    (∀ (col : Collab) (ctx : Ctx) (env : OneShot X509SVIDResponse),
      ∀ cl ∈ (FetchX509Bundles col ctx env).1,
        ("workload.spiffe.io", "true") ∈ cl.md) ∧
    (∀ (col : Collab) (ctx : Ctx) (env : OneShot X509SVIDResponse),
      ∀ cl ∈ (FetchX509Context col ctx env).1,
        ("workload.spiffe.io", "true") ∈ cl.md) ∧
    (∀ (col : Collab) (ctx : Ctx) (env : OneShot JWTBundlesResponse),
      ∀ cl ∈ (FetchJWTBundles col ctx env).1,
        ("workload.spiffe.io", "true") ∈ cl.md) ∧
    (∀ (col : Collab) (ctx : Ctx) (params : JWTParams)
        (agentResp : Except Err JWTSVIDResponse),
      ∀ cl ∈ (FetchJWTSVID col ctx params agentResp).1,
        ("workload.spiffe.io", "true") ∈ cl.md) ∧
    (∀ (col : Collab) (ctx : Ctx) (token audience : String)
        (agent : Except Err Unit),
      ∀ cl ∈ (ValidateJWTSVID col ctx token audience agent).1,
        ("workload.spiffe.io", "true") ∈ cl.md) ∧
    (∀ (col : Collab) (ctx : Ctx) (c : Client)
        (script : List (Session X509SVIDResponse × Bool)),
      ∀ a ∈ (WatchX509Context col c ctx script).2.1, ∀ md : Ctx,
        a = WAction.openCall md → ("workload.spiffe.io", "true") ∈ md) ∧
    (∀ (col : Collab) (ctx : Ctx) (c : Client)
        (script : List (Session JWTBundlesResponse × Bool)),
      ∀ a ∈ (WatchJWTBundles col c ctx script).2.1, ∀ md : Ctx,
        a = WAction.openCall md → ("workload.spiffe.io", "true") ∈ md) := by
  refine ⟨?_, ?_, ?_, ?_, ?_, ?_, ?_, ?_, ?_, ?_⟩
  · intro ctx
    simp [withHeader, metadataNewOutgoingContext, metadataPairs]
  · intro col ctx env cl hcl
    simp only [FetchX509SVID, List.mem_singleton] at hcl
    subst hcl
    simp [withHeader, metadataNewOutgoingContext, metadataPairs]
  · intro col ctx env cl hcl
    simp only [FetchX509SVIDs, List.mem_singleton] at hcl
    subst hcl
    simp [withHeader, metadataNewOutgoingContext, metadataPairs]
  · intro col ctx env cl hcl
    simp only [FetchX509Bundles, List.mem_singleton] at hcl
    subst hcl
    simp [withHeader, metadataNewOutgoingContext, metadataPairs]
  · intro col ctx env cl hcl
    simp only [FetchX509Context, List.mem_singleton] at hcl
    subst hcl
    simp [withHeader, metadataNewOutgoingContext, metadataPairs]
  · intro col ctx env cl hcl
    simp only [FetchJWTBundles, List.mem_singleton] at hcl
    subst hcl
    simp [withHeader, metadataNewOutgoingContext, metadataPairs]
  · intro col ctx params agentResp cl hcl
    simp only [FetchJWTSVID, List.mem_singleton] at hcl
    subst hcl
    simp [withHeader, metadataNewOutgoingContext, metadataPairs]
  · intro col ctx token audience agent cl hcl
    simp only [ValidateJWTSVID, List.mem_singleton] at hcl
    subst hcl
    simp [withHeader, metadataNewOutgoingContext, metadataPairs]
  · intro col ctx c script a ha md hmd
    rw [WatchX509Context_open_md col ctx script c a ha md hmd]
    simp [withHeader, metadataNewOutgoingContext, metadataPairs]
  · intro col ctx c script a ha md hmd
    rw [WatchJWTBundles_open_md col ctx script c a ha md hmd]
    simp [withHeader, metadataNewOutgoingContext, metadataPairs]

/-- Witness for C7 at a concrete one-shot call. -/
theorem every_call_carries_workload_header_witness :
    ("workload.spiffe.io", "true") ∈
      (Call.mk "FetchX509SVID" (withHeader [])).md :=
  every_call_carries_workload_header.2.1 sampleCollab []
    ⟨none, Except.ok goodResp⟩ (Call.mk "FetchX509SVID" (withHeader []))
    (by simp [FetchX509SVID])

end SpiffeClient
